import Mathlib

/-!
Verification of the homework-status Telegram bot (homework.py) against its
specification. The Python source is shallowly embedded: JSON values become an
inductive type, Python exceptions become an error type returned through
`Except`, logging calls become explicit log-entry values, and the infinite
polling loop of `main` becomes a step function over an explicit loop state
driven by a list of per-cycle environments (the HTTP outcome and the Telegram
delivery outcome, which are external to the program).
-/

/-- A JSON value as produced by response.json() in Python: null, booleans,
numbers, strings, arrays and objects (dictionaries). Numbers are modelled as
integers; no claim involves fractional values. -/
inductive Json where
  | null : Json
  | bool (b : Bool) : Json
  | num (n : Int) : Json
  | str (s : String) : Json
  | arr (l : List Json) : Json
  | obj (d : List (String × Json)) : Json
deriving Repr

mutual

/-- Python equality (the == and != operators) on embedded JSON values.
Values of different types compare unequal, mirroring Python. -/
def jsonEq : Json → Json → Bool
  | .null, .null => true
  | .bool a, .bool b => a == b
  | .num a, .num b => a == b
  | .str a, .str b => a == b
  | .arr a, .arr b => jsonEqArr a b
  | .obj a, .obj b => jsonEqObj a b
  | _, _ => false
termination_by structural j _ => j

/-- Elementwise Python equality of JSON arrays. -/
def jsonEqArr : List Json → List Json → Bool
  | [], [] => true
  | a :: as, b :: bs => jsonEq a b && jsonEqArr as bs
  | _, _ => false
termination_by structural l _ => l

/-- Python equality of dictionaries in insertion order; faithful for the
values this program compares, whose dict operands come from decoded JSON. -/
def jsonEqObj : List (String × Json) → List (String × Json) → Bool
  | [], [] => true
  | (k, a) :: as, (l, b) :: bs => k == l && jsonEq a b && jsonEqObj as bs
  | _, _ => false
termination_by structural l _ => l

end

/-- Python truthiness: None, empty containers, empty strings, zero and False
are falsy; everything else is truthy. Used by the `if homework and ...` test
in main. -/
def pyTruthy : Json → Bool
  | .null => false
  | .bool b => b
  | .num n => n != 0
  | .str s => !s.isEmpty
  | .arr l => !l.isEmpty
  | .obj d => !d.isEmpty

/-- Python dict.get(key): the value bound to the key, or None when the key is
absent. A JSON null value and an absent key are indistinguishable through
.get, exactly as in Python. Python dicts have unique keys, so taking the
first binding is faithful. -/
def pyGet (d : List (String × Json)) (k : String) : Json :=
  match d.lookup k with
  | some v => v
  | none => .null

/-- Python str() as used inside f-strings, for the values that can reach a
formatted message in this program: scalars. Container rendering is modelled
opaquely; no claim depends on it (homework names are strings or None). -/
def pyStr : Json → String
  | .null => "None"
  | .bool true => "True"
  | .bool false => "False"
  | .num n => toString n
  | .str s => s
  | .arr _ => "[...]"
  | .obj _ => "\x7b...\x7d"

def Json.isDict : Json → Bool
  | .obj _ => true
  | _ => false

def Json.isList : Json → Bool
  | .arr _ => true
  | _ => false

def Json.isNull : Json → Bool
  | .null => true
  | _ => false

/-- The fields of a JSON object (empty for non-objects; only used under an
isDict guard, mirroring Python code that has already passed a type check). -/
def Json.asDict : Json → List (String × Json)
  | .obj d => d
  | _ => []

/-- The elements of a JSON array (empty for non-arrays; only used under an
isList guard). -/
def Json.asList : Json → List Json
  | .arr l => l
  | _ => []

/-- The Python exceptions this program can raise or propagate: the four
classes declared in homework.py plus the built-in exceptions its code can
trigger (TypeError, KeyError, IndexError, AttributeError) and the
json.JSONDecodeError re-raised in get_api_answer. Each carries the message
str() would show. -/
inductive PyError where
  | notDocumentStatusError (msg : String)
  | urlApiError (msg : String)
  | requestExceptionError (msg : String)
  | emptyDictionaryOrListError (msg : String)
  | typeError (msg : String)
  | keyError (k : String)
  | indexError
  | attributeError (attr : String)
  | jsonDecodeError (msg : String)
deriving Repr, DecidableEq

/-- Python str(error), as interpolated into the failure message in main. -/
def errStr : PyError → String
  | .notDocumentStatusError m => m
  | .urlApiError m => m
  | .requestExceptionError m => m
  | .emptyDictionaryOrListError m => m
  | .typeError m => m
  | .keyError k => "'" ++ k ++ "'"
  | .indexError => "list index out of range"
  | .attributeError a => "object has no attribute '" ++ a ++ "'"
  | .jsonDecodeError m => m

/-- Python subscripting value[key] with a string key: returns the bound value
of a dict, KeyError when the key is absent, TypeError on non-dicts. -/
def pySubscript (j : Json) (k : String) : Except PyError Json :=
  match j with
  | .obj d =>
      match d.lookup k with
      | some v => .ok v
      | none => .error (.keyError k)
  | _ => .error (.typeError "indices must be integers")

/-- A log line: level and message. -/
inductive LogLevel where
  | debug
  | info
  | error
  | critical
deriving Repr, DecidableEq

structure LogEntry where
  level : LogLevel
  msg : String
deriving Repr, DecidableEq

/-- The ENDPOINT constant of homework.py. -/
def ENDPOINT : String := "https://practicum.yandex.ru/api/user_api/homework_statuses/"

/-- The RETRY_PERIOD constant of homework.py (seconds between poll cycles). -/
def RETRY_PERIOD : Nat := 600

/-- The HOMEWORK_VERDICTS table of homework.py: status code to verdict
sentence. -/
def HOMEWORK_VERDICTS : List (String × String) :=
  [("approved", "Работа проверена: ревьюеру всё понравилось. Ура!"),
   ("reviewing", "Работа взята на проверку ревьюером."),
   ("rejected", "Работа проверена: у ревьюера есть замечания.")]

/-- Python membership test `status in HOMEWORK_VERDICTS`: a string is looked
up among the table's keys; None, booleans and numbers are hashable and are
simply not members; a list or dict status is unhashable, so the membership
test itself raises TypeError before any verdict handling is reached. -/
def inVerdicts (j : Json) : Except PyError Bool :=
  match j with
  | .str s => .ok (HOMEWORK_VERDICTS.lookup s).isSome
  | .arr _ => .error (.typeError "unhashable type: 'list'")
  | .obj _ => .error (.typeError "unhashable type: 'dict'")
  | _ => .ok false

/-- Python lookup HOMEWORK_VERDICTS[status]; only evaluated after the
membership test has succeeded, so the default is unreachable there. -/
def verdictOf (j : Json) : String :=
  match j with
  | .str s => (HOMEWORK_VERDICTS.lookup s).getD ""
  | _ => ""

/-- check_tokens of homework.py. The three environment values are passed
explicitly (None becomes Option.none). Returns the token_error boolean
together with the critical log lines written; the if/elif/elif chain logs
only the first missing variable. The function itself raises nothing, which
the total return type reflects. -/
def check_tokens (practicum_token telegram_token telegram_chat_id : Option String) :
    Bool × List LogEntry :=
  let tokens_msg :=
    "Программа принудительно остановлена. Отсутствует обязательная переменная окружения:"
  match practicum_token with
  | none => (true, [⟨.critical, tokens_msg ++ " PRACTICUM_TOKEN"⟩])
  | some _ =>
      match telegram_token with
      | none => (true, [⟨.critical, tokens_msg ++ " TELEGRAM_TOKEN"⟩])
      | some _ =>
          match telegram_chat_id with
          | none => (true, [⟨.critical, tokens_msg ++ " TELEGRAM_CHAT_ID"⟩])
          | some _ => (false, [])

/-- send_message of homework.py. The outcome of bot.send_message is external
and passed in: .ok for a delivered message, .error carrying the
telegram.TelegramError text otherwise. The try/except swallows the delivery
error into an error-level log line; the Except component of the result is the
exception behaviour of send_message itself, always .ok. -/
def send_message (deliver : Except String Unit) (message : String) :
    Except PyError Unit × List LogEntry :=
  match deliver with
  | .ok _ => (.ok (), [⟨.debug, "Сообщение успешно отправлено!"⟩])
  | .error tel_error =>
      (.ok (), [⟨.error, "Отправка сообщения прервана ошибкой " ++ tel_error ++ "!"⟩])

/-- The outcome of the requests.get call in get_api_answer, which is external:
either a transport-layer failure (requests.exceptions.RequestException) or an
HTTP response carrying a status code and the result of decoding its body as
JSON (response.json() either returns a value or raises a decode error). -/
structure HttpResponse where
  status_code : Nat
  body : Except String Json

inductive FetchOutcome where
  | fail (e : String)
  | resp (r : HttpResponse)

/-- The error message built by get_api_answer for a non-200 status code,
carrying the endpoint URL and the status code. -/
def apiUnavailableMsg (code : Nat) : String :=
  "Эндпоинт " ++ ENDPOINT ++ " недоступен. Код ответа API: " ++ toString code

/-- get_api_answer of homework.py on a given requests.get outcome. A non-200
status raises UrlApiError (not caught by the except clauses, which match only
RequestException and JSONDecodeError); on 200 the decoded body is returned,
a decode failure being re-raised as a JSONDecodeError with the custom
message. response.json() is only called on the 200 path. -/
def get_api_answer (fetch : FetchOutcome) : Except PyError Json :=
  match fetch with
  | .fail request_error =>
      .error (.requestExceptionError
        ("Код ответа API (RequestException): " ++ request_error))
  | .resp response =>
      if response.status_code ≠ 200 then
        .error (.urlApiError (apiUnavailableMsg response.status_code))
      else
        match response.body with
        | .ok j => .ok j
        | .error value_error =>
            .error (.jsonDecodeError ("Код ответа API (ValueError): " ++ value_error))

/-- check_response of homework.py: type(response) != dict raises TypeError;
response.get('homeworks') is None raises EmptyDictionaryOrListError (this
covers both an absent key and a null value, as in Python);
type(...) != list raises TypeError; finally response['homeworks'][0] is
returned, which on an empty list raises IndexError. -/
def check_response (response : Json) : Except PyError Json :=
  if response.isDict = false then
    .error (.typeError "Структура данных не соответсвует словарю!")
  else if (pyGet response.asDict "homeworks").isNull then
    .error (.emptyDictionaryOrListError
      ("Ошибка ключа homeworks или response" ++ "имеет неправильное значение."))
  else if (pyGet response.asDict "homeworks").isList = false then
    .error (.typeError "Структура данных не соответсвует списку!")
  else
    match (pyGet response.asDict "homeworks").asList with
    | [] => .error .indexError
    | x :: _ => .ok x

/-- parse_status of homework.py: homework.get('status') and
homework.get('homework_name') (AttributeError on a non-dict); the membership
test `status not in HOMEWORK_VERDICTS` raises TypeError on an unhashable
status and NotDocumentStatusError on a hashable non-member; an absent
homework_name only produces a log line, and the f-string renders it as None;
otherwise the formatted transition sentence is returned. -/
def parse_status (homework : Json) : Except PyError String :=
  match homework with
  | .obj hw =>
      let status := pyGet hw "status"
      let homework_name := pyGet hw "homework_name"
      match inVerdicts status with
      | .error e => .error e
      | .ok mem =>
          if mem = false then
            .error (.notDocumentStatusError "Недокументированный формат статуса!")
          else
            let verdict := verdictOf status
            .ok ("Изменился статус проверки работы \"" ++ pyStr homework_name
              ++ "\". " ++ verdict)
  | _ => .error (.attributeError "get")

/-- The loop state of main: the timestamp captured once before the loop
(int(time.time())), the hw_status variable (a Python value, initially the
string 'reviewing'), and the errors flag (initially True, meaning the next
failure is still to be reported). -/
structure LoopState where
  timestamp : Int
  hw_status : Json
  errors : Bool

/-- The state main enters the while-loop with. -/
def initState (timestamp : Int) : LoopState :=
  { timestamp := timestamp, hw_status := .str "reviewing", errors := true }

/-- Which call site of send_message produced a notification: the
status-change message inside the try block, or the program-failure message
in the except handler. -/
inductive NoticeKind where
  | statusChange
  | failureReport
deriving Repr, DecidableEq

/-- Observable events of one loop cycle: the get_api_answer call with its
from_date timestamp, a delivered Telegram notification, and log lines.
time.sleep is not an observable of any claim and is not recorded. -/
inductive Output where
  | fetch (timestamp : Int)
  | sent (kind : NoticeKind) (message : String)
  | log (entry : LogEntry)
deriving Repr, DecidableEq

/-- The environment of one cycle: the outcome of the requests.get call and
the outcome of a bot.send_message delivery attempt, both external. -/
structure CycleEnv where
  fetch : FetchOutcome
  deliver : Except String Unit

/-- The effect of a send_message call viewed as loop outputs: a sent event
on successful delivery, and the log lines send_message writes. -/
def send_out (deliver : Except String Unit) (kind : NoticeKind) (message : String) :
    List Output :=
  match deliver with
  | .ok _ =>
      [Output.sent kind message, Output.log ⟨.debug, "Сообщение успешно отправлено!"⟩]
  | .error tel_error =>
      [Output.log ⟨.error, "Отправка сообщения прервана ошибкой " ++ tel_error ++ "!"⟩]

/-- The try-block of one iteration of main's while-loop: fetch, validate,
compare the record's status with hw_status (short-circuiting on falsy
homework), and on a change format, send, assign hw_status and log. Any
raised exception surfaces as .error and is handled by step. The condition
`homework and hw_status != homework['status']` subscripts the record, so a
record without a 'status' key raises KeyError here. -/
def cycleTry (s : LoopState) (fetch : FetchOutcome) (deliver : Except String Unit) :
    Except PyError (LoopState × List Output) :=
  match get_api_answer fetch with
  | .error e => .error e
  | .ok response =>
      match check_response response with
      | .error e => .error e
      | .ok homework =>
          if pyTruthy homework then
            match pySubscript homework "status" with
            | .error e => .error e
            | .ok st =>
                if jsonEq s.hw_status st then
                  .ok (s, [Output.log ⟨.info, "Изменений нет!"⟩])
                else
                  match parse_status homework with
                  | .error e => .error e
                  | .ok message =>
                      .ok ({ s with hw_status := st },
                        send_out deliver .statusChange message ++
                          [Output.log ⟨.info, "Обновление статуса домашки на " ++ pyStr st⟩])
          else
            .ok (s, [Output.log ⟨.info, "Изменений нет!"⟩])

/-- One full iteration of main's while-loop, including the except handler:
on failure the message 'Сбой в работе программы: ...' is built; if the
errors flag is set it is cleared, the message is sent and logged at debug
level; a critical log line is written for the failure in either case. The
fetch event records the from_date argument of the get_api_answer call that
starts every cycle. -/
def step (s : LoopState) (env : CycleEnv) : LoopState × List Output :=
  match cycleTry s env.fetch env.deliver with
  | .ok (s2, outs) => (s2, Output.fetch s.timestamp :: outs)
  | .error e =>
      let message := "Сбой в работе программы: " ++ errStr e
      if s.errors then
        ({ s with errors := false },
          Output.fetch s.timestamp ::
            (send_out env.deliver .failureReport message ++
              [Output.log ⟨.debug, message⟩, Output.log ⟨.critical, message⟩]))
      else
        (s, [Output.fetch s.timestamp, Output.log ⟨.critical, message⟩])

/-- A finite prefix of the infinite while-loop: the state after consuming the
given cycle environments, together with all outputs in order. -/
def run (s : LoopState) : List CycleEnv → LoopState × List Output
  | [] => (s, [])
  | env :: rest =>
      let p := step s env
      let q := run p.1 rest
      (q.1, p.2 ++ q.2)

/-- Number of delivered notifications of any kind in a list of outputs. -/
def sentCount : List Output → Nat
  | [] => 0
  | Output.sent _ _ :: rest => sentCount rest + 1
  | _ :: rest => sentCount rest

/-- Number of delivered program-failure notifications in a list of outputs. -/
def failNoticeCount : List Output → Nat
  | [] => 0
  | Output.sent NoticeKind.failureReport _ :: rest => failNoticeCount rest + 1
  | _ :: rest => failNoticeCount rest

/-- Does a parse_status result fail with NotDocumentStatusError, whatever
the message? -/
def isNotDocumentStatus : Except PyError String → Bool
  | .error (.notDocumentStatusError _) => true
  | _ => false

/-- C1 counterexample: a record whose status is a JSON list does not fail
with NotDocumentStatusError as the claim states for every non-verdict
status — the membership test at the top of parse_status raises TypeError
(unhashable type) before the verdict check is ever reached. -/
theorem parse_status_verdicts_counterexample :
    parse_status (.obj [("status", .arr []), ("homework_name", .str "proj1")]) =
      .error (.typeError "unhashable type: 'list'") ∧
    isNotDocumentStatus
      (parse_status (.obj [("status", .arr []), ("homework_name", .str "proj1")])) = false :=
  ⟨rfl, rfl⟩

/-- C1 (amended): a homework record whose status is a key of the Verdict
Table is formatted into the transition sentence carrying the record's name
and the exact mapped verdict text; a record whose status is any other
hashable value (absent, rendered as null by .get, or a boolean, number or
non-key string) fails with NotDocumentStatusError; a record whose status is
a list or a dict fails with TypeError from the unhashable membership test
instead. -/
theorem parse_status_verdicts :
    (∀ (hw : List (String × Json)) (name s v : String),
      HOMEWORK_VERDICTS.lookup s = some v →
      pyGet hw "status" = .str s →
      pyGet hw "homework_name" = .str name →
      parse_status (.obj hw) =
        .ok ("Изменился статус проверки работы \"" ++ name ++ "\". " ++ v)) ∧
    (∀ (hw : List (String × Json)),
      inVerdicts (pyGet hw "status") = .ok false →
      parse_status (.obj hw) =
        .error (.notDocumentStatusError "Недокументированный формат статуса!")) ∧
    (∀ (hw : List (String × Json)) (l : List Json),
      pyGet hw "status" = .arr l →
      parse_status (.obj hw) = .error (.typeError "unhashable type: 'list'")) ∧
    (∀ (hw : List (String × Json)) (d : List (String × Json)),
      pyGet hw "status" = .obj d →
      parse_status (.obj hw) = .error (.typeError "unhashable type: 'dict'")) := by
  refine ⟨?_, ?_, ?_, ?_⟩
  · intro hw name s v hv hs hn
    simp [parse_status, hs, hn, inVerdicts, verdictOf, hv, pyStr]
  · intro hw h
    simp [parse_status, h]
  · intro hw l h
    simp [parse_status, h, inVerdicts]
  · intro hw d h
    simp [parse_status, h, inVerdicts]

/-- Concrete instance of C1: Scenario A of the spec, the unknown hashable
status 'pending', and the unhashable list and dict statuses. -/
theorem parse_status_verdicts_witness :
    parse_status (.obj [("status", .str "approved"), ("homework_name", .str "proj1")]) =
      .ok "Изменился статус проверки работы \"proj1\". Работа проверена: ревьюеру всё понравилось. Ура!" ∧
    parse_status (.obj [("status", .str "pending"), ("homework_name", .str "proj1")]) =
      .error (.notDocumentStatusError "Недокументированный формат статуса!") ∧
    parse_status (.obj [("status", .arr [.str "approved"])]) =
      .error (.typeError "unhashable type: 'list'") ∧
    parse_status (.obj [("status", .obj [("s", .str "approved")])]) =
      .error (.typeError "unhashable type: 'dict'") :=
  ⟨parse_status_verdicts.1 [("status", .str "approved"), ("homework_name", .str "proj1")]
      "proj1" "approved" "Работа проверена: ревьюеру всё понравилось. Ура!" rfl rfl rfl,
   parse_status_verdicts.2.1 [("status", .str "pending"), ("homework_name", .str "proj1")] rfl,
   parse_status_verdicts.2.2.1 [("status", .arr [.str "approved"])] [.str "approved"] rfl,
   parse_status_verdicts.2.2.2 [("status", .obj [("s", .str "approved")])]
     [("s", .str "approved")] rfl⟩

/-- C2: check_response classifies its input in order: a non-dict fails with
the dictionary TypeError; a dict whose homeworks value is absent (or null)
fails with EmptyDictionaryOrListError; a dict whose homeworks value is
present but not a list fails with the list TypeError. -/
theorem check_response_classifies :
    (∀ (response : Json), response.isDict = false →
      check_response response =
        .error (.typeError "Структура данных не соответсвует словарю!")) ∧
    (∀ (d : List (String × Json)), (pyGet d "homeworks").isNull = true →
      check_response (.obj d) = .error (.emptyDictionaryOrListError
        ("Ошибка ключа homeworks или response" ++ "имеет неправильное значение."))) ∧
    (∀ (d : List (String × Json)),
      (pyGet d "homeworks").isNull = false →
      (pyGet d "homeworks").isList = false →
      check_response (.obj d) =
        .error (.typeError "Структура данных не соответсвует списку!")) := by
  refine ⟨?_, ?_, ?_⟩
  · intro response h
    simp [check_response, h]
  · intro d h
    simp [check_response, Json.isDict, Json.asDict, h]
  · intro d h1 h2
    simp [check_response, Json.isDict, Json.asDict, h1, h2]

/-- Concrete instance of C2: a string response, a dict without homeworks, and
a dict whose homeworks value is a number. -/
theorem check_response_classifies_witness :
    check_response (.str "oops") =
      .error (.typeError "Структура данных не соответсвует словарю!") ∧
    check_response (.obj [("current_date", .num 0)]) =
      .error (.emptyDictionaryOrListError
        ("Ошибка ключа homeworks или response" ++ "имеет неправильное значение.")) ∧
    check_response (.obj [("homeworks", .num 3)]) =
      .error (.typeError "Структура данных не соответсвует списку!") :=
  ⟨check_response_classifies.1 (.str "oops") rfl,
   check_response_classifies.2.1 [("current_date", .num 0)] rfl,
   check_response_classifies.2.2 [("homeworks", .num 3)] rfl rfl⟩

/-- C3: a non-200 HTTP status makes get_api_answer fail with UrlApiError
whose message carries the endpoint URL and the status code, for every
possible body (so the body is never parsed on that path); a 200 response
returns the decoded JSON body. -/
theorem get_api_answer_spec :
    (∀ (code : Nat) (body : Except String Json), code ≠ 200 →
      get_api_answer (.resp ⟨code, body⟩) =
        .error (.urlApiError (apiUnavailableMsg code))) ∧
    (∀ (j : Json), get_api_answer (.resp ⟨200, .ok j⟩) = .ok j) := by
  constructor
  · intro code body h
    simp [get_api_answer, h]
  · intro j
    simp [get_api_answer]

/-- Concrete instance of C3: a 503 response whose body would not even decode,
and a 200 response with a JSON body. -/
theorem get_api_answer_spec_witness :
    get_api_answer (.resp ⟨503, .error "Expecting value"⟩) =
      .error (.urlApiError (apiUnavailableMsg 503)) ∧
    get_api_answer (.resp ⟨200, .ok (.obj [("homeworks", .arr [])])⟩) =
      .ok (.obj [("homeworks", .arr [])]) :=
  ⟨get_api_answer_spec.1 503 (.error "Expecting value") (by decide),
   get_api_answer_spec.2 (.obj [("homeworks", .arr [])])⟩

/-- C6: a dict whose homeworks value is a non-empty list makes check_response
return its first element; an empty homeworks list makes the unconditional
position-0 indexing fault with IndexError instead of returning a value. -/
theorem check_response_first_element :
    (∀ (d : List (String × Json)) (x : Json) (rest : List Json),
      pyGet d "homeworks" = .arr (x :: rest) →
      check_response (.obj d) = .ok x) ∧
    (∀ (d : List (String × Json)),
      pyGet d "homeworks" = .arr [] →
      check_response (.obj d) = .error .indexError) := by
  constructor
  · intro d x rest h
    simp [check_response, Json.isDict, Json.asDict, h, Json.isNull, Json.isList, Json.asList]
  · intro d h
    simp [check_response, Json.isDict, Json.asDict, h, Json.isNull, Json.isList, Json.asList]

/-- Concrete instance of C6: a one-element homeworks list and an empty one. -/
theorem check_response_first_element_witness :
    check_response (.obj [("homeworks", .arr [.obj [("status", .str "approved")]])]) =
      .ok (.obj [("status", .str "approved")]) ∧
    check_response (.obj [("homeworks", .arr [])]) = .error .indexError :=
  ⟨check_response_first_element.1 [("homeworks", .arr [.obj [("status", .str "approved")]])]
      (.obj [("status", .str "approved")]) [] rfl,
   check_response_first_element.2 [("homeworks", .arr [])] rfl⟩

/-- C7: send_message returns normally for every delivery outcome and message
(the Except component of its result is always ok, so no exception reaches the
caller), and a failed delivery is recorded as an error-level log line. -/
theorem send_message_swallows :
    (∀ (deliver : Except String Unit) (message : String),
      (send_message deliver message).1 = .ok ()) ∧
    (∀ (tel_error message : String),
      (send_message (.error tel_error) message).2 =
        [⟨.error, "Отправка сообщения прервана ошибкой " ++ tel_error ++ "!"⟩]) := by
  constructor
  · intro deliver message
    cases deliver <;> rfl
  · intro tel_error message
    rfl

/-- How many failure notifications the remaining run may still deliver:
one while the errors flag is set, none once it is cleared. -/
def errBudget : Bool → Nat
  | true => 1
  | false => 0

theorem failNoticeCount_append (a b : List Output) :
    failNoticeCount (a ++ b) = failNoticeCount a + failNoticeCount b := by
  induction a with
  | nil => simp [failNoticeCount]
  | cons x rest ih =>
      cases x with
      | fetch ts => simp [failNoticeCount, ih]
      | sent k m => cases k <;> simp [failNoticeCount, ih] <;> omega
      | log e => simp [failNoticeCount, ih]

/-- A successful cycle never touches the timestamp or the errors flag, never
delivers a failure notification, and records no fetch event of its own (the
fetch event of the cycle is recorded by step). -/
theorem cycleTry_ok_invariants (s : LoopState) (f : FetchOutcome)
    (d : Except String Unit) (s2 : LoopState) (outs : List Output)
    (h : cycleTry s f d = .ok (s2, outs)) :
    s2.timestamp = s.timestamp ∧ s2.errors = s.errors ∧
    failNoticeCount outs = 0 ∧ (∀ ts, Output.fetch ts ∉ outs) := by
  unfold cycleTry at h
  split at h
  · exact absurd h (by simp)
  · split at h
    · exact absurd h (by simp)
    · split at h
      · split at h
        · exact absurd h (by simp)
        · split at h
          · cases h with
            | refl => simp [failNoticeCount]
          · split at h
            · exact absurd h (by simp)
            · cases h with
              | refl =>
                  refine ⟨rfl, rfl, ?_, ?_⟩
                  · cases d <;> simp [send_out, failNoticeCount]
                  · intro ts
                    cases d <;> simp [send_out]
      · cases h with
        | refl => simp [failNoticeCount]

theorem step_budget (s : LoopState) (env : CycleEnv) :
    failNoticeCount (step s env).2 + errBudget (step s env).1.errors ≤
      errBudget s.errors := by
  unfold step
  cases hc : cycleTry s env.fetch env.deliver with
  | ok p =>
      have h := cycleTry_ok_invariants s env.fetch env.deliver p.1 p.2 (by rw [hc])
      simp [failNoticeCount, h.2.1, h.2.2.1]
  | error e =>
      cases he : s.errors with
      | true =>
          cases env.deliver <;>
            simp [he, failNoticeCount, send_out, errBudget]
      | false =>
          simp [he, failNoticeCount, errBudget]

theorem run_budget (s : LoopState) (envs : List CycleEnv) :
    failNoticeCount (run s envs).2 ≤ errBudget s.errors := by
  induction envs generalizing s with
  | nil => simp [run, failNoticeCount]
  | cons env rest ih =>
      have hstep := step_budget s env
      have hrest := ih (step s env).1
      simp only [run, failNoticeCount_append]
      omega

/-- C5: over any finite prefix of a process run started in the initial state,
at most one failure notification is ever delivered; each failing cycle still
writes a critical log line regardless of the flag; a failing cycle with the
flag set delivers the failure notice (when Telegram accepts it) and clears
the flag; a failing cycle with the flag cleared sends nothing and leaves the
state untouched. -/
theorem failure_notice_policy :
    (∀ (timestamp : Int) (envs : List CycleEnv),
      failNoticeCount (run (initState timestamp) envs).2 ≤ 1) ∧
    (∀ (s : LoopState) (env : CycleEnv) (e : PyError),
      cycleTry s env.fetch env.deliver = .error e →
      Output.log ⟨.critical, "Сбой в работе программы: " ++ errStr e⟩ ∈ (step s env).2) ∧
    (∀ (s : LoopState) (env : CycleEnv) (e : PyError),
      s.errors = true → env.deliver = .ok () →
      cycleTry s env.fetch env.deliver = .error e →
      Output.sent .failureReport ("Сбой в работе программы: " ++ errStr e) ∈ (step s env).2 ∧
      (step s env).1.errors = false) ∧
    (∀ (s : LoopState) (env : CycleEnv) (e : PyError),
      s.errors = false →
      cycleTry s env.fetch env.deliver = .error e →
      sentCount (step s env).2 = 0 ∧ (step s env).1 = s) := by
  refine ⟨?_, ?_, ?_, ?_⟩
  · intro timestamp envs
    exact le_trans (run_budget (initState timestamp) envs) (by simp [initState, errBudget])
  · intro s env e h
    unfold step
    rw [h]
    cases he : s.errors
    · simp
    · cases env.deliver <;> simp [send_out]
  · intro s env e herr hdel h
    unfold step
    rw [h, hdel]
    simp [herr, send_out]
  · intro s env e herr h
    unfold step
    rw [h]
    simp [herr, sentCount, failNoticeCount]

/-- Concrete instance of C5 at a 500-status cycle: one notice delivered on
the first failure, the critical line present, and silence plus an unchanged
state once the flag is down. -/
theorem failure_notice_policy_witness :
    failNoticeCount
      (run (initState 0) [⟨.resp ⟨500, .ok .null⟩, .ok ()⟩,
        ⟨.resp ⟨500, .ok .null⟩, .ok ()⟩]).2 ≤ 1 ∧
    Output.log ⟨.critical,
        "Сбой в работе программы: " ++ errStr (.urlApiError (apiUnavailableMsg 500))⟩ ∈
      (step (initState 0) ⟨.resp ⟨500, .ok .null⟩, .ok ()⟩).2 ∧
    Output.sent .failureReport
        ("Сбой в работе программы: " ++ errStr (.urlApiError (apiUnavailableMsg 500))) ∈
      (step (initState 0) ⟨.resp ⟨500, .ok .null⟩, .ok ()⟩).2 ∧
    sentCount (step ⟨0, .str "reviewing", false⟩ ⟨.resp ⟨500, .ok .null⟩, .ok ()⟩).2 = 0 :=
  ⟨failure_notice_policy.1 0 [⟨.resp ⟨500, .ok .null⟩, .ok ()⟩, ⟨.resp ⟨500, .ok .null⟩, .ok ()⟩],
   failure_notice_policy.2.1 (initState 0) ⟨.resp ⟨500, .ok .null⟩, .ok ()⟩
     (.urlApiError (apiUnavailableMsg 500)) rfl,
   (failure_notice_policy.2.2.1 (initState 0) ⟨.resp ⟨500, .ok .null⟩, .ok ()⟩
     (.urlApiError (apiUnavailableMsg 500)) rfl rfl rfl).1,
   (failure_notice_policy.2.2.2 ⟨0, .str "reviewing", false⟩ ⟨.resp ⟨500, .ok .null⟩, .ok ()⟩
     (.urlApiError (apiUnavailableMsg 500)) rfl rfl).1⟩

/-- C4: a cycle that fetches and validates successfully and extracts a
record whose status Python-equals the current hw_status takes the
else-branch: nothing is sent and the loop state (in particular
last_known_status) is returned unchanged. With s the state left by a
previous successful cycle, this is exactly the second of two consecutive
cycles observing the same status. -/
theorem second_cycle_idempotent (s : LoopState) (env : CycleEnv)
    (response homework st : Json)
    (hresp : get_api_answer env.fetch = .ok response)
    (hhw : check_response response = .ok homework)
    (hst : pySubscript homework "status" = .ok st)
    (heq : jsonEq s.hw_status st = true) :
    (step s env).1 = s ∧ sentCount (step s env).2 = 0 := by
  have htr : pyTruthy homework = true := by
    cases homework with
    | null => simp [pySubscript] at hst
    | bool b => simp [pySubscript] at hst
    | num n => simp [pySubscript] at hst
    | str t => simp [pySubscript] at hst
    | arr l => simp [pySubscript] at hst
    | obj d =>
        cases d with
        | nil => simp [pySubscript, List.lookup] at hst
        | cons a as => simp [pyTruthy]
  have hcyc : cycleTry s env.fetch env.deliver =
      .ok (s, [Output.log ⟨.info, "Изменений нет!"⟩]) := by
    simp [cycleTry, hresp, hhw, htr, hst, heq]
  unfold step
  rw [hcyc]
  exact ⟨rfl, rfl⟩

/-- Concrete instance of C4: the initial state already knows status
'reviewing' and the fetched record carries status 'reviewing' again. -/
theorem second_cycle_idempotent_witness :
    (step (initState 0)
        ⟨.resp ⟨200, .ok (.obj [("homeworks", .arr
          [.obj [("status", .str "reviewing"), ("homework_name", .str "proj1")]])])⟩,
         .ok ()⟩).1 = initState 0 ∧
    sentCount (step (initState 0)
        ⟨.resp ⟨200, .ok (.obj [("homeworks", .arr
          [.obj [("status", .str "reviewing"), ("homework_name", .str "proj1")]])])⟩,
         .ok ()⟩).2 = 0 :=
  second_cycle_idempotent (initState 0)
    ⟨.resp ⟨200, .ok (.obj [("homeworks", .arr
      [.obj [("status", .str "reviewing"), ("homework_name", .str "proj1")]])])⟩, .ok ()⟩
    (.obj [("homeworks", .arr
      [.obj [("status", .str "reviewing"), ("homework_name", .str "proj1")]])])
    (.obj [("status", .str "reviewing"), ("homework_name", .str "proj1")])
    (.str "reviewing") rfl rfl rfl rfl

theorem step_timestamp (s : LoopState) (env : CycleEnv) :
    (step s env).1.timestamp = s.timestamp ∧
    (∀ (ts : Int), Output.fetch ts ∈ (step s env).2 → ts = s.timestamp) := by
  unfold step
  cases hc : cycleTry s env.fetch env.deliver with
  | ok p =>
      obtain ⟨s2, outs⟩ := p
      have h := cycleTry_ok_invariants s env.fetch env.deliver s2 outs (by rw [hc])
      refine ⟨h.1, ?_⟩
      intro ts hmem
      rcases List.mem_cons.1 hmem with heq | hin
      · cases heq
        rfl
      · exact absurd hin (h.2.2.2 ts)
  | error e =>
      cases he : s.errors with
      | true =>
          refine ⟨by simp, ?_⟩
          intro ts hmem
          cases hd : env.deliver <;> simp [send_out, hd] at hmem <;> exact hmem
      | false =>
          refine ⟨rfl, ?_⟩
          intro ts hmem
          simp at hmem
          exact hmem

/-- C9: over any finite prefix of the run, the loop state's timestamp stays
the startup value and every fetch event (the from_date of every
get_api_answer call) carries exactly that value: no cycle, successful or
failing, ever advances it. -/
theorem timestamp_never_advances (s : LoopState) (envs : List CycleEnv) :
    (run s envs).1.timestamp = s.timestamp ∧
    (∀ (ts : Int), Output.fetch ts ∈ (run s envs).2 → ts = s.timestamp) := by
  induction envs generalizing s with
  | nil => simp [run]
  | cons env rest ih =>
      have hstep := step_timestamp s env
      have hrest := ih (step s env).1
      simp only [run]
      constructor
      · rw [hrest.1, hstep.1]
      · intro ts hmem
        rcases List.mem_append.1 hmem with h | h
        · exact hstep.2 ts h
        · exact hstep.1 ▸ hrest.2 ts h

/-- Concrete instance of C9: a failing cycle followed by a successful one,
both fetching with the startup timestamp 5. -/
theorem timestamp_never_advances_witness :
    (run (initState 5) [⟨.resp ⟨500, .ok .null⟩, .ok ()⟩,
        ⟨.resp ⟨200, .ok (.obj [("homeworks", .arr
          [.obj [("status", .str "reviewing")]])])⟩, .ok ()⟩]).1.timestamp = 5 ∧
    (5 : Int) = 5 :=
  ⟨(timestamp_never_advances (initState 5) [⟨.resp ⟨500, .ok .null⟩, .ok ()⟩,
      ⟨.resp ⟨200, .ok (.obj [("homeworks", .arr
        [.obj [("status", .str "reviewing")]])])⟩, .ok ()⟩]).1,
   (timestamp_never_advances (initState 5) [⟨.resp ⟨500, .ok .null⟩, .ok ()⟩,
      ⟨.resp ⟨200, .ok (.obj [("homeworks", .arr
        [.obj [("status", .str "reviewing")]])])⟩, .ok ()⟩]).2 5 (by decide)⟩

/-- C10: a cycle whose try-block raises (anywhere in fetch, validate, format
or notify) is handled by the except branch, which never writes hw_status:
last_known_status is exactly what it was when the cycle started. -/
theorem failing_cycle_atomic (s : LoopState) (env : CycleEnv) (e : PyError)
    (h : cycleTry s env.fetch env.deliver = .error e) :
    (step s env).1.hw_status = s.hw_status := by
  unfold step
  rw [h]
  cases he : s.errors <;> simp [he]

/-- Concrete instance of C10: a cycle failing on an unknown status keeps
hw_status at 'reviewing'. -/
theorem failing_cycle_atomic_witness :
    (step (initState 0)
        ⟨.resp ⟨200, .ok (.obj [("homeworks", .arr
          [.obj [("status", .str "pending")]])])⟩, .ok ()⟩).1.hw_status =
      Json.str "reviewing" :=
  failing_cycle_atomic (initState 0)
    ⟨.resp ⟨200, .ok (.obj [("homeworks", .arr [.obj [("status", .str "pending")]])])⟩, .ok ()⟩
    (.notDocumentStatusError "Недокументированный формат статуса!") rfl

/-- C8: check_tokens reports true exactly when at least one of the three
required values is absent, and false when all three are present; its total
type certifies it raises nothing itself. -/
theorem check_tokens_spec :
    (∀ (p t c : Option String),
      ((check_tokens p t c).1 = true ↔ (p = none ∨ t = none ∨ c = none))) ∧
    (∀ (a b c : String), (check_tokens (some a) (some b) (some c)).1 = false) := by
  constructor
  · intro p t c
    cases p <;> cases t <;> cases c <;> simp [check_tokens]
  · intro a b c
    rfl
